import Mathlib

/-!
Shallow embedding of `src/models/models.py` from the covid-cxr repository.

The file defines three Keras model builders:
  - `dcnn_binary`            (sequential stack, sigmoid head),
  - `dcnn_multiclass`        (sequential stack, softmax head),
  - `dcnn_multiclass_resnet` (functional graph with per-block shortcut
    concatenation, softmax head).

The embedding models a Keras layer as a constructor of an inductive type
recording exactly the arguments the Python code passes, a `Sequential`
model as the list of added layers plus its compile configuration, and the
functional-API model as a tensor graph.  Python floats (learning rate,
dropout, regularization strength, output bias) are modelled as rationals;
their numeric semantics are irrelevant to the claims, which only track
which values are passed where.  The `eval(...)` calls on the three size
strings of the configuration are modelled by `pyEval` over an inductive
type of expression outcomes: an integer literal, a pair literal such as
(3,3), or a malformed (non-evaluable) expression on which `eval` raises,
modelled as `none`; the builders therefore return `Option`.
-/

namespace CovidCxr

/-- Outcome type of a size argument: Keras `Conv2D`/`MaxPool2D` accept a
single integer or a pair of integers. -/
inductive KSize where
  | int (n : Nat)
  | pair (a b : Nat)
deriving DecidableEq, Repr

/-- A size expression string from the configuration, as the Python `eval`
sees it: an integer literal, a pair literal, or a malformed expression. -/
inductive ConfigExpr where
  | intLit (n : Nat)
  | pairLit (a b : Nat)
  | malformed
deriving DecidableEq, Repr

/-- Models the `eval(model_config[...])` calls of the source: a literal
evaluates to the corresponding size value, a malformed expression raises
(here: `none`). -/
def pyEval : ConfigExpr → Option KSize
  | .intLit n => some (.int n)
  | .pairLit a b => some (.pair a b)
  | .malformed => none

/-- The flat configuration mapping read by all three builders, with the
keys the source accesses. -/
structure ModelConfig where
  NODES_DENSE0 : Nat
  LR : ℚ
  DROPOUT : ℚ
  L2_LAMBDA : ℚ
  INIT_FILTERS : Nat
  FILTER_EXP_BASE : Nat
  CONV_BLOCKS : Nat
  KERNEL_SIZE : ConfigExpr
  MAXPOOL_SIZE : ConfigExpr
  STRIDES : ConfigExpr
deriving DecidableEq, Repr

/-- An input tensor shape (height, width, channels). -/
structure Shape where
  height : Nat
  width : Nat
  channels : Nat
deriving DecidableEq, Repr

/-- Output activations used by the source. -/
inductive Activation where
  | sigmoid
  | softmax
deriving DecidableEq, Repr

/-- A bias initializer argument: the source passes `Constant(output_bias)`
or leaves the Keras default (modelled as `Option.none` at use sites). -/
inductive Initializer where
  | constant (c : ℚ)
deriving DecidableEq, Repr

/-- A Keras layer as added by the source, recording exactly the arguments
the Python code passes.  `conv2D` records filters, the kernel-size
argument, strides, padding, the kernel initializer, the L2 activity
regularization coefficient and the optional `input_shape`; `dense`
records units, optional activation, optional kernel initializer, optional
L2 coefficient, optional bias initializer and optional layer name. -/
inductive Layer where
  | conv2D (filters : Nat) (kernel : KSize) (strides : KSize)
      (padding : String) (kernel_init : String) (l2_reg : ℚ)
      (input_shape : Option Shape)
  | batchNormalization
  | leakyReLU
  | maxPool2D (pool : KSize) (padding : String)
  | flatten
  | dropout (rate : ℚ)
  | dense (units : Nat) (activation : Option Activation)
      (kernel_init : Option String) (l2_reg : Option ℚ)
      (bias_init : Option Initializer) (layer_name : Option String)
deriving DecidableEq, Repr

/-- Loss functions passed to `model.compile`. -/
inductive Loss where
  | binary_crossentropy
  | categorical_crossentropy
deriving DecidableEq, Repr

/-- Optimizers imported by the source (only `Adam` is used). -/
inductive Optimizer where
  | adam (learning_rate : ℚ)
  | sgd
deriving DecidableEq, Repr

/-- A compiled Keras `Sequential` model: its name, the list of layers in
the order they were added, and the compile configuration. -/
structure SeqModel where
  name : String
  layers : List Layer
  loss : Loss
  optimizer : Optimizer
  metrics : List String
deriving DecidableEq, Repr

/-- A tensor of the functional API, as a term of the computation graph
built by `dcnn_multiclass_resnet`.  `concat` models the call
`concatenate([X, X_res])` (two inputs, channel axis). -/
inductive Tensor where
  | input (shape : Shape)
  | conv2D (filters : Nat) (kernel : KSize) (strides : KSize)
      (padding : String) (kernel_init : String) (l2_reg : ℚ) (x : Tensor)
  | batchNormalization (x : Tensor)
  | leakyReLU (x : Tensor)
  | maxPool2D (pool : KSize) (padding : String) (x : Tensor)
  | concat (x y : Tensor)
  | flatten (x : Tensor)
  | dropout (rate : ℚ) (x : Tensor)
  | dense (units : Nat) (activation : Option Activation)
      (kernel_init : Option String) (l2_reg : Option ℚ)
      (layer_name : Option String) (x : Tensor)
deriving DecidableEq, Repr

/-- A compiled functional-API model (`Model(inputs=X_input, outputs=Y)`
followed by `compile`). -/
structure GraphModel where
  model_input : Shape
  output : Tensor
  loss : Loss
  optimizer : Optimizer
  metrics : List String
deriving DecidableEq, Repr

/-- One iteration of the block loop of `dcnn_binary` (source lines 36-45):
the block-0 convolution receives `input_shape`, later blocks receive
`init_filters * filter_exp_base ** i` filters; every block then adds
batch normalization, leaky ReLU and max pooling. -/
def binaryConvBlock (cfg : ModelConfig) (input_shape : Shape)
    (kernel_size strides max_pool_size : KSize) (i : Nat) : List Layer :=
  (if i = 0 then
    [Layer.conv2D cfg.INIT_FILTERS kernel_size strides "same" "he_uniform"
      cfg.L2_LAMBDA (some input_shape)]
  else
    [Layer.conv2D (cfg.INIT_FILTERS * cfg.FILTER_EXP_BASE ^ i) kernel_size
      strides "same" "he_uniform" cfg.L2_LAMBDA none])
  ++ [Layer.batchNormalization, Layer.leakyReLU,
      Layer.maxPool2D max_pool_size "same"]

/-- Embedding of `dcnn_binary` (source lines 8-57). -/
def dcnn_binary (model_config : ModelConfig) (input_shape : Shape)
    (metrics : List String) (output_bias : Option ℚ) : Option SeqModel := do
  let kernel_size ← pyEval model_config.KERNEL_SIZE
  let max_pool_size ← pyEval model_config.MAXPOOL_SIZE
  let strides ← pyEval model_config.STRIDES
  let ob := output_bias.map Initializer.constant
  let convLayers := (List.range model_config.CONV_BLOCKS).flatMap
    (binaryConvBlock model_config input_shape kernel_size strides max_pool_size)
  some
    { name := "covid-19-cxr-custom1"
      layers := convLayers ++
        [Layer.flatten,
         Layer.dropout model_config.DROPOUT,
         Layer.dense model_config.NODES_DENSE0 none (some "he_uniform")
           (some model_config.L2_LAMBDA) none none,
         Layer.leakyReLU,
         Layer.dense 1 (some .sigmoid) none none ob (some "output")]
      loss := .binary_crossentropy
      optimizer := .adam model_config.LR
      metrics := metrics }

/-- One iteration of the block loop of `dcnn_multiclass` (source lines
86-95).  Block 0 passes `(filter_exp_base ** i)` — an integer — as the
kernel-size argument of the convolution (source line 88); later blocks
pass the evaluated `kernel_size`. -/
def multiclassConvBlock (cfg : ModelConfig) (input_shape : Shape)
    (kernel_size strides max_pool_size : KSize) (i : Nat) : List Layer :=
  (if i = 0 then
    [Layer.conv2D cfg.INIT_FILTERS (KSize.int (cfg.FILTER_EXP_BASE ^ i))
      strides "same" "he_uniform" cfg.L2_LAMBDA (some input_shape)]
  else
    [Layer.conv2D (cfg.INIT_FILTERS * cfg.FILTER_EXP_BASE ^ i) kernel_size
      strides "same" "he_uniform" cfg.L2_LAMBDA none])
  ++ [Layer.batchNormalization, Layer.leakyReLU,
      Layer.maxPool2D max_pool_size "same"]

/-- Embedding of `dcnn_multiclass` (source lines 60-108). -/
def dcnn_multiclass (model_config : ModelConfig) (input_shape : Shape)
    (num_classes : Nat) (metrics : List String) : Option SeqModel := do
  let kernel_size ← pyEval model_config.KERNEL_SIZE
  let max_pool_size ← pyEval model_config.MAXPOOL_SIZE
  let strides ← pyEval model_config.STRIDES
  let convLayers := (List.range model_config.CONV_BLOCKS).flatMap
    (multiclassConvBlock model_config input_shape kernel_size strides
      max_pool_size)
  some
    { name := "covid-19-cxr-custom1"
      layers := convLayers ++
        [Layer.flatten,
         Layer.dropout model_config.DROPOUT,
         Layer.dense model_config.NODES_DENSE0 none (some "he_uniform")
           (some model_config.L2_LAMBDA) none none,
         Layer.dropout model_config.DROPOUT,
         Layer.leakyReLU,
         Layer.dense num_classes (some .softmax) none none none (some "output")]
      loss := .categorical_crossentropy
      optimizer := .adam model_config.LR
      metrics := metrics }

/-- One iteration of the block loop of `dcnn_multiclass_resnet` (source
lines 138-149): the block input is kept as `X_res`, the main branch goes
through convolution, batch normalization, leaky ReLU, a second
convolution, is concatenated with `X_res`, then batch normalization,
leaky ReLU and max pooling follow. -/
def resnetConvBlock (cfg : ModelConfig)
    (kernel_size strides max_pool_size : KSize) (i : Nat) (X : Tensor) :
    Tensor :=
  let X_res := X
  let X := Tensor.conv2D (cfg.INIT_FILTERS * cfg.FILTER_EXP_BASE ^ i)
    kernel_size strides "same" "he_uniform" cfg.L2_LAMBDA X
  let X := Tensor.batchNormalization X
  let X := Tensor.leakyReLU X
  let X := Tensor.conv2D (cfg.INIT_FILTERS * cfg.FILTER_EXP_BASE ^ i)
    kernel_size strides "same" "he_uniform" cfg.L2_LAMBDA X
  let X := Tensor.concat X X_res
  let X := Tensor.batchNormalization X
  let X := Tensor.leakyReLU X
  Tensor.maxPool2D max_pool_size "same" X

/-- Embedding of `dcnn_multiclass_resnet` (source lines 111-162). -/
def dcnn_multiclass_resnet (model_config : ModelConfig) (input_shape : Shape)
    (num_classes : Nat) (metrics : List String) : Option GraphModel := do
  let kernel_size ← pyEval model_config.KERNEL_SIZE
  let max_pool_size ← pyEval model_config.MAXPOOL_SIZE
  let strides ← pyEval model_config.STRIDES
  let X_input := Tensor.input input_shape
  let X := (List.range model_config.CONV_BLOCKS).foldl
    (fun X i => resnetConvBlock model_config kernel_size strides max_pool_size i X)
    X_input
  let X := Tensor.flatten X
  let X := Tensor.dropout model_config.DROPOUT X
  let X := Tensor.dense model_config.NODES_DENSE0 none (some "he_uniform")
    (some model_config.L2_LAMBDA) none X
  let X := Tensor.leakyReLU X
  let Y := Tensor.dense num_classes (some .softmax) none none (some "output") X
  some
    { model_input := input_shape
      output := Y
      loss := .categorical_crossentropy
      optimizer := .adam model_config.LR
      metrics := metrics }

/-- The (filters, kernel-size argument) pairs of the convolution layers in
a layer list, in the order the layers were added. -/
def convArgs (ls : List Layer) : List (Nat × KSize) :=
  ls.filterMap fun l =>
    match l with
    | .conv2D f k _ _ _ _ _ => some (f, k)
    | _ => none

/-- Number of max-pooling layers in a layer list.  In both sequential
builders every convolutional stage ends in exactly one pooling layer and
the dense head contains none, so this counts the stages. -/
def poolCount (ls : List Layer) : Nat :=
  ls.countP fun l => match l with | .maxPool2D _ _ => true | _ => false

/-- Number of batch-normalization layers in a layer list. -/
def bnCount (ls : List Layer) : Nat :=
  ls.countP fun l => match l with | .batchNormalization => true | _ => false

/-- The (filters, kernel-size argument) pairs of the convolutions along
the residual graph, from input to output.  At a `concat` the walk
descends the main branch (first argument), which contains the block's
two convolutions and reaches the block's input; the shortcut (second
argument) IS that same block input, so descending it as well would count
the shared upstream layers twice. -/
def Tensor.spineConvArgs : Tensor → List (Nat × KSize)
  | .input _ => []
  | .conv2D f k _ _ _ _ x => x.spineConvArgs ++ [(f, k)]
  | .batchNormalization x => x.spineConvArgs
  | .leakyReLU x => x.spineConvArgs
  | .maxPool2D _ _ x => x.spineConvArgs
  | .concat x _ => x.spineConvArgs
  | .flatten x => x.spineConvArgs
  | .dropout _ x => x.spineConvArgs
  | .dense _ _ _ _ _ x => x.spineConvArgs

/-- Number of max-pooling layers along the residual graph (same walk as
`Tensor.spineConvArgs`); each residual block applies exactly one. -/
def Tensor.spinePoolCount : Tensor → Nat
  | .input _ => 0
  | .conv2D _ _ _ _ _ _ x => x.spinePoolCount
  | .batchNormalization x => x.spinePoolCount
  | .leakyReLU x => x.spinePoolCount
  | .maxPool2D _ _ x => x.spinePoolCount + 1
  | .concat x _ => x.spinePoolCount
  | .flatten x => x.spinePoolCount
  | .dropout _ x => x.spinePoolCount
  | .dense _ _ _ _ _ x => x.spinePoolCount

/-- The channel (last-axis) dimension of a tensor.  Keras `concatenate`
joins along the channel axis, so channels add; `conv2D` outputs `filters`
channels; normalization, activation, pooling and dropout preserve the
channel count; `dense` outputs `units`.  `flatten` collapses the spatial
axes (not tracked here) into the last axis; the development never applies
`channels` past a `flatten`. -/
def Tensor.channels : Tensor → Nat
  | .input s => s.channels
  | .conv2D f _ _ _ _ _ _ => f
  | .batchNormalization x => x.channels
  | .leakyReLU x => x.channels
  | .maxPool2D _ _ x => x.channels
  | .concat x y => x.channels + y.channels
  | .flatten x => x.channels
  | .dropout _ x => x.channels
  | .dense u _ _ _ _ _ => u

/-- The units, activation and layer name of a graph tensor's outermost
layer, when that layer is a dense layer. -/
def outputHead : Tensor → Option (Nat × Option Activation × Option String)
  | .dense u a _ _ nm _ => some (u, a, nm)
  | _ => none

/-- A concrete well-formed configuration used by the witnesses: kernel
(3,3), pooling (2,2), strides (1,1), 3 blocks, 16 initial filters,
growth base 2. -/
def cfgA : ModelConfig :=
  { NODES_DENSE0 := 128, LR := 1/1000, DROPOUT := 1/2, L2_LAMBDA := 1/100,
    INIT_FILTERS := 16, FILTER_EXP_BASE := 2, CONV_BLOCKS := 3,
    KERNEL_SIZE := .pairLit 3 3, MAXPOOL_SIZE := .pairLit 2 2,
    STRIDES := .pairLit 1 1 }

/-- The configuration `cfgA` with a zero block count. -/
def cfgZ : ModelConfig :=
  { cfgA with CONV_BLOCKS := 0 }

/-- The configuration `cfgA` with a malformed kernel-size expression. -/
def cfgBad : ModelConfig :=
  { cfgA with KERNEL_SIZE := .malformed }

/-- A concrete input shape used by the witnesses. -/
def shapeA : Shape :=
  { height := 224, width := 224, channels := 3 }

/-- Unfolding of `dcnn_binary` when all three size expressions evaluate. -/
theorem dcnn_binary_eq (cfg : ModelConfig) (input_shape : Shape)
    (metrics : List String) (output_bias : Option ℚ) (ks ps ss : KSize)
    (hk : pyEval cfg.KERNEL_SIZE = some ks)
    (hp : pyEval cfg.MAXPOOL_SIZE = some ps)
    (hs : pyEval cfg.STRIDES = some ss) :
    dcnn_binary cfg input_shape metrics output_bias = some
      { name := "covid-19-cxr-custom1"
        layers := (List.range cfg.CONV_BLOCKS).flatMap
            (binaryConvBlock cfg input_shape ks ss ps) ++
          [Layer.flatten, Layer.dropout cfg.DROPOUT,
           Layer.dense cfg.NODES_DENSE0 none (some "he_uniform")
             (some cfg.L2_LAMBDA) none none,
           Layer.leakyReLU,
           Layer.dense 1 (some .sigmoid) none none
             (output_bias.map Initializer.constant) (some "output")]
        loss := .binary_crossentropy
        optimizer := .adam cfg.LR
        metrics := metrics } := by
  simp [dcnn_binary, hk, hp, hs]

/-- Unfolding of `dcnn_multiclass` when all three size expressions
evaluate. -/
theorem dcnn_multiclass_eq (cfg : ModelConfig) (input_shape : Shape)
    (num_classes : Nat) (metrics : List String) (ks ps ss : KSize)
    (hk : pyEval cfg.KERNEL_SIZE = some ks)
    (hp : pyEval cfg.MAXPOOL_SIZE = some ps)
    (hs : pyEval cfg.STRIDES = some ss) :
    dcnn_multiclass cfg input_shape num_classes metrics = some
      { name := "covid-19-cxr-custom1"
        layers := (List.range cfg.CONV_BLOCKS).flatMap
            (multiclassConvBlock cfg input_shape ks ss ps) ++
          [Layer.flatten, Layer.dropout cfg.DROPOUT,
           Layer.dense cfg.NODES_DENSE0 none (some "he_uniform")
             (some cfg.L2_LAMBDA) none none,
           Layer.dropout cfg.DROPOUT,
           Layer.leakyReLU,
           Layer.dense num_classes (some .softmax) none none none
             (some "output")]
        loss := .categorical_crossentropy
        optimizer := .adam cfg.LR
        metrics := metrics } := by
  simp [dcnn_multiclass, hk, hp, hs]

/-- Unfolding of `dcnn_multiclass_resnet` when all three size expressions
evaluate. -/
theorem dcnn_multiclass_resnet_eq (cfg : ModelConfig) (input_shape : Shape)
    (num_classes : Nat) (metrics : List String) (ks ps ss : KSize)
    (hk : pyEval cfg.KERNEL_SIZE = some ks)
    (hp : pyEval cfg.MAXPOOL_SIZE = some ps)
    (hs : pyEval cfg.STRIDES = some ss) :
    dcnn_multiclass_resnet cfg input_shape num_classes metrics = some
      { model_input := input_shape
        output := Tensor.dense num_classes (some .softmax) none none
          (some "output") (Tensor.leakyReLU
            (Tensor.dense cfg.NODES_DENSE0 none (some "he_uniform")
              (some cfg.L2_LAMBDA) none
              (Tensor.dropout cfg.DROPOUT (Tensor.flatten
                ((List.range cfg.CONV_BLOCKS).foldl
                  (fun X i => resnetConvBlock cfg ks ss ps i X)
                  (Tensor.input input_shape))))))
        loss := .categorical_crossentropy
        optimizer := .adam cfg.LR
        metrics := metrics } := by
  simp [dcnn_multiclass_resnet, hk, hp, hs]

/-- `filterMap` distributes over `flatMap`. -/
theorem filterMap_flatMap {α β γ : Type} (l : List α) (f : α → List β)
    (g : β → Option γ) :
    (l.flatMap f).filterMap g = l.flatMap fun a => (f a).filterMap g := by
  induction l with
  | nil => rfl
  | cons a t ih => simp [ih]

/-- `countP` over `flatMap` sums the per-element counts. -/
theorem countP_flatMap {α β : Type} (l : List α) (f : α → List β)
    (p : β → Bool) :
    (l.flatMap f).countP p = (l.map fun a => (f a).countP p).sum := by
  induction l with
  | nil => rfl
  | cons a t ih => simp [List.countP_append, ih]

/-- `flatMap` of singletons is `map`. -/
theorem flatMap_singleton_eq_map {α β : Type} (l : List α) (f : α → β) :
    (l.flatMap fun a => [f a]) = l.map f := by
  induction l with
  | nil => rfl
  | cons a t ih => simp [ih]

/-- Every binary block contributes one convolution, with `init_filters *
filter_exp_base ** i` filters (block 0 passes the plain `init_filters`,
which equals the product at `i = 0`) and the configured kernel size. -/
theorem binaryConvBlock_convArgs (cfg : ModelConfig) (input_shape : Shape)
    (ks ss ps : KSize) (i : Nat) :
    convArgs (binaryConvBlock cfg input_shape ks ss ps i) =
      [(cfg.INIT_FILTERS * cfg.FILTER_EXP_BASE ^ i, ks)] := by
  by_cases h : i = 0
  · subst h; simp [binaryConvBlock, convArgs]
  · simp [binaryConvBlock, h, convArgs]

/-- Every multiclass block contributes one convolution; block 0 passes
`(filter_exp_base ** i)` as the kernel-size argument, later blocks pass
the configured kernel size. -/
theorem multiclassConvBlock_convArgs (cfg : ModelConfig)
    (input_shape : Shape) (ks ss ps : KSize) (i : Nat) :
    convArgs (multiclassConvBlock cfg input_shape ks ss ps i) =
      [(cfg.INIT_FILTERS * cfg.FILTER_EXP_BASE ^ i,
        if i = 0 then KSize.int (cfg.FILTER_EXP_BASE ^ i) else ks)] := by
  by_cases h : i = 0
  · subst h; simp [multiclassConvBlock, convArgs]
  · simp [multiclassConvBlock, h, convArgs]

/-- Each binary block contains exactly one pooling layer. -/
theorem binaryConvBlock_poolCount (cfg : ModelConfig) (input_shape : Shape)
    (ks ss ps : KSize) (i : Nat) :
    poolCount (binaryConvBlock cfg input_shape ks ss ps i) = 1 := by
  by_cases h : i = 0 <;> simp [binaryConvBlock, h, poolCount]

/-- Each binary block contains exactly one normalization layer. -/
theorem binaryConvBlock_bnCount (cfg : ModelConfig) (input_shape : Shape)
    (ks ss ps : KSize) (i : Nat) :
    bnCount (binaryConvBlock cfg input_shape ks ss ps i) = 1 := by
  by_cases h : i = 0 <;> simp [binaryConvBlock, h, bnCount]

/-- Each multiclass block contains exactly one pooling layer. -/
theorem multiclassConvBlock_poolCount (cfg : ModelConfig)
    (input_shape : Shape) (ks ss ps : KSize) (i : Nat) :
    poolCount (multiclassConvBlock cfg input_shape ks ss ps i) = 1 := by
  by_cases h : i = 0 <;> simp [multiclassConvBlock, h, poolCount]

/-- Each multiclass block contains exactly one normalization layer. -/
theorem multiclassConvBlock_bnCount (cfg : ModelConfig)
    (input_shape : Shape) (ks ss ps : KSize) (i : Nat) :
    bnCount (multiclassConvBlock cfg input_shape ks ss ps i) = 1 := by
  by_cases h : i = 0 <;> simp [multiclassConvBlock, h, bnCount]

/-- One residual block adds exactly one pooling layer on the spine. -/
theorem resnetConvBlock_spinePoolCount (cfg : ModelConfig)
    (ks ss ps : KSize) (i : Nat) (X : Tensor) :
    (resnetConvBlock cfg ks ss ps i X).spinePoolCount =
      X.spinePoolCount + 1 := by
  simp [resnetConvBlock, Tensor.spinePoolCount]

/-- One residual block adds exactly two convolutions on the spine, both
with `init_filters * filter_exp_base ** i` filters and the configured
kernel size. -/
theorem resnetConvBlock_spineConvArgs (cfg : ModelConfig)
    (ks ss ps : KSize) (i : Nat) (X : Tensor) :
    (resnetConvBlock cfg ks ss ps i X).spineConvArgs =
      X.spineConvArgs ++
        [(cfg.INIT_FILTERS * cfg.FILTER_EXP_BASE ^ i, ks),
         (cfg.INIT_FILTERS * cfg.FILTER_EXP_BASE ^ i, ks)] := by
  simp [resnetConvBlock, Tensor.spineConvArgs]

/-- The residual block loop applies exactly one pooling stage per
iteration. -/
theorem resnet_fold_spinePoolCount (cfg : ModelConfig) (ks ss ps : KSize)
    (n : Nat) (X : Tensor) :
    ((List.range n).foldl
        (fun X i => resnetConvBlock cfg ks ss ps i X) X).spinePoolCount =
      X.spinePoolCount + n := by
  induction n with
  | zero => rfl
  | succ n ih =>
    rw [List.range_succ, List.foldl_append]
    simp [resnetConvBlock_spinePoolCount, ih, Nat.add_assoc]

/-- The residual block loop lays down two convolutions per iteration with
the expected filters and kernel sizes. -/
theorem resnet_fold_spineConvArgs (cfg : ModelConfig) (ks ss ps : KSize)
    (n : Nat) (X : Tensor) :
    ((List.range n).foldl
        (fun X i => resnetConvBlock cfg ks ss ps i X) X).spineConvArgs =
      X.spineConvArgs ++ (List.range n).flatMap
        (fun i => [(cfg.INIT_FILTERS * cfg.FILTER_EXP_BASE ^ i, ks),
                   (cfg.INIT_FILTERS * cfg.FILTER_EXP_BASE ^ i, ks)]) := by
  induction n with
  | zero => simp
  | succ n ih =>
    rw [List.range_succ, List.foldl_append]
    simp [resnetConvBlock_spineConvArgs, ih, List.range_succ]

/-- Claim C1: for every configuration whose size expressions evaluate
and every input shape, the binary builder ends in a single-unit sigmoid
output layer named "output", and both multiclass builders end in a
softmax output layer with `num_classes` units. -/
theorem output_layer_units_and_activation
    (cfg : ModelConfig) (input_shape : Shape) (metrics : List String)
    (output_bias : Option ℚ) (num_classes : Nat) (ks ps ss : KSize)
    (hk : pyEval cfg.KERNEL_SIZE = some ks)
    (hp : pyEval cfg.MAXPOOL_SIZE = some ps)
    (hs : pyEval cfg.STRIDES = some ss) :
    (dcnn_binary cfg input_shape metrics output_bias).map
        (fun m => m.layers.getLast?) =
      some (some (Layer.dense 1 (some .sigmoid) none none
        (output_bias.map Initializer.constant) (some "output"))) ∧
    (dcnn_multiclass cfg input_shape num_classes metrics).map
        (fun m => m.layers.getLast?) =
      some (some (Layer.dense num_classes (some .softmax) none none none
        (some "output"))) ∧
    (dcnn_multiclass_resnet cfg input_shape num_classes metrics).map
        (fun m => outputHead m.output) =
      some (some (num_classes, some Activation.softmax, some "output")) := by
  rw [dcnn_binary_eq cfg input_shape metrics output_bias ks ps ss hk hp hs,
      dcnn_multiclass_eq cfg input_shape num_classes metrics ks ps ss hk hp hs,
      dcnn_multiclass_resnet_eq cfg input_shape num_classes metrics ks ps ss
        hk hp hs]
  refine ⟨?_, ?_, ?_⟩ <;> simp [List.getLast?_append, outputHead]

/-- Witness for C1 at the concrete configuration `cfgA`. -/
theorem output_layer_units_and_activation_witness :
    (pyEval cfgA.KERNEL_SIZE = some (KSize.pair 3 3) ∧
     pyEval cfgA.MAXPOOL_SIZE = some (KSize.pair 2 2) ∧
     pyEval cfgA.STRIDES = some (KSize.pair 1 1)) ∧
    ((dcnn_binary cfgA shapeA ["accuracy"] (some (1/2))).map
        (fun m => m.layers.getLast?) =
      some (some (Layer.dense 1 (some .sigmoid) none none
        (some (Initializer.constant (1/2))) (some "output"))) ∧
    (dcnn_multiclass cfgA shapeA 3 ["accuracy"]).map
        (fun m => m.layers.getLast?) =
      some (some (Layer.dense 3 (some .softmax) none none none
        (some "output"))) ∧
    (dcnn_multiclass_resnet cfgA shapeA 3 ["accuracy"]).map
        (fun m => outputHead m.output) =
      some (some (3, some Activation.softmax, some "output"))) :=
  ⟨⟨rfl, rfl, rfl⟩,
   output_layer_units_and_activation cfgA shapeA ["accuracy"] (some (1/2)) 3
     (KSize.pair 3 3) (KSize.pair 2 2) (KSize.pair 1 1) rfl rfl rfl⟩

/-- Claim C5: in the binary builder, a supplied output bias seed becomes a
constant bias initializer of the output layer; with no seed the output
layer keeps the default bias initialization. -/
theorem binary_output_bias (cfg : ModelConfig) (input_shape : Shape)
    (metrics : List String) (b : ℚ) (ks ps ss : KSize)
    (hk : pyEval cfg.KERNEL_SIZE = some ks)
    (hp : pyEval cfg.MAXPOOL_SIZE = some ps)
    (hs : pyEval cfg.STRIDES = some ss) :
    (dcnn_binary cfg input_shape metrics (some b)).map
        (fun m => m.layers.getLast?) =
      some (some (Layer.dense 1 (some .sigmoid) none none
        (some (Initializer.constant b)) (some "output"))) ∧
    (dcnn_binary cfg input_shape metrics none).map
        (fun m => m.layers.getLast?) =
      some (some (Layer.dense 1 (some .sigmoid) none none none
        (some "output"))) := by
  refine ⟨?_, ?_⟩ <;>
    rw [dcnn_binary_eq cfg input_shape metrics _ ks ps ss hk hp hs] <;>
    simp [List.getLast?_append]

/-- Witness for C5 at the concrete configuration `cfgA` with bias seed
7/10. -/
theorem binary_output_bias_witness :
    (pyEval cfgA.KERNEL_SIZE = some (KSize.pair 3 3) ∧
     pyEval cfgA.MAXPOOL_SIZE = some (KSize.pair 2 2) ∧
     pyEval cfgA.STRIDES = some (KSize.pair 1 1)) ∧
    ((dcnn_binary cfgA shapeA ["accuracy"] (some (7/10))).map
        (fun m => m.layers.getLast?) =
      some (some (Layer.dense 1 (some .sigmoid) none none
        (some (Initializer.constant (7/10))) (some "output"))) ∧
    (dcnn_binary cfgA shapeA ["accuracy"] none).map
        (fun m => m.layers.getLast?) =
      some (some (Layer.dense 1 (some .sigmoid) none none none
        (some "output")))) :=
  ⟨⟨rfl, rfl, rfl⟩,
   binary_output_bias cfgA shapeA ["accuracy"] (7/10)
     (KSize.pair 3 3) (KSize.pair 2 2) (KSize.pair 1 1) rfl rfl rfl⟩

/-- Claim C7: every successfully constructed model is compiled with an
Adam optimizer at the configured learning rate, binary cross-entropy for
the binary builder, categorical cross-entropy for both multiclass
builders, tracking exactly the caller-supplied metric list. -/
theorem compile_settings (cfg : ModelConfig) (input_shape : Shape)
    (metrics : List String) (output_bias : Option ℚ) (num_classes : Nat)
    (ks ps ss : KSize)
    (hk : pyEval cfg.KERNEL_SIZE = some ks)
    (hp : pyEval cfg.MAXPOOL_SIZE = some ps)
    (hs : pyEval cfg.STRIDES = some ss) :
    (dcnn_binary cfg input_shape metrics output_bias).map
        (fun m => (m.loss, m.optimizer, m.metrics)) =
      some (Loss.binary_crossentropy, Optimizer.adam cfg.LR, metrics) ∧
    (dcnn_multiclass cfg input_shape num_classes metrics).map
        (fun m => (m.loss, m.optimizer, m.metrics)) =
      some (Loss.categorical_crossentropy, Optimizer.adam cfg.LR, metrics) ∧
    (dcnn_multiclass_resnet cfg input_shape num_classes metrics).map
        (fun m => (m.loss, m.optimizer, m.metrics)) =
      some (Loss.categorical_crossentropy, Optimizer.adam cfg.LR, metrics) := by
  rw [dcnn_binary_eq cfg input_shape metrics output_bias ks ps ss hk hp hs,
      dcnn_multiclass_eq cfg input_shape num_classes metrics ks ps ss hk hp hs,
      dcnn_multiclass_resnet_eq cfg input_shape num_classes metrics ks ps ss
        hk hp hs]
  exact ⟨rfl, rfl, rfl⟩

/-- Witness for C7 at the concrete configuration `cfgA`. -/
theorem compile_settings_witness :
    (pyEval cfgA.KERNEL_SIZE = some (KSize.pair 3 3) ∧
     pyEval cfgA.MAXPOOL_SIZE = some (KSize.pair 2 2) ∧
     pyEval cfgA.STRIDES = some (KSize.pair 1 1)) ∧
    ((dcnn_binary cfgA shapeA ["accuracy"] none).map
        (fun m => (m.loss, m.optimizer, m.metrics)) =
      some (Loss.binary_crossentropy, Optimizer.adam (1/1000), ["accuracy"]) ∧
    (dcnn_multiclass cfgA shapeA 3 ["accuracy"]).map
        (fun m => (m.loss, m.optimizer, m.metrics)) =
      some (Loss.categorical_crossentropy, Optimizer.adam (1/1000),
        ["accuracy"]) ∧
    (dcnn_multiclass_resnet cfgA shapeA 3 ["accuracy"]).map
        (fun m => (m.loss, m.optimizer, m.metrics)) =
      some (Loss.categorical_crossentropy, Optimizer.adam (1/1000),
        ["accuracy"])) :=
  ⟨⟨rfl, rfl, rfl⟩,
   compile_settings cfgA shapeA ["accuracy"] none 3
     (KSize.pair 3 3) (KSize.pair 2 2) (KSize.pair 1 1) rfl rfl rfl⟩

/-- `convArgs` distributes over append. -/
theorem convArgs_append (l₁ l₂ : List Layer) :
    convArgs (l₁ ++ l₂) = convArgs l₁ ++ convArgs l₂ := by
  simp [convArgs]

/-- `convArgs` distributes over `flatMap`. -/
theorem convArgs_flatMap {α : Type} (l : List α) (f : α → List Layer) :
    convArgs (l.flatMap f) = l.flatMap fun a => convArgs (f a) := by
  simp [convArgs, filterMap_flatMap]

/-- Summing a constant over a list multiplies it by the length. -/
theorem sum_map_const {α : Type} (l : List α) (c : Nat) :
    (l.map fun _ => c).sum = l.length * c := by
  induction l with
  | nil => simp
  | cons a t ih => simp [ih, Nat.succ_mul, Nat.add_comm]

/-- `bnCount` distributes over append. -/
theorem bnCount_append (l₁ l₂ : List Layer) :
    bnCount (l₁ ++ l₂) = bnCount l₁ + bnCount l₂ := by
  simp [bnCount, List.countP_append]

/-- `poolCount` distributes over append. -/
theorem poolCount_append (l₁ l₂ : List Layer) :
    poolCount (l₁ ++ l₂) = poolCount l₁ + poolCount l₂ := by
  simp [poolCount, List.countP_append]

/-- Convolution arguments and per-kind layer counts of the convolutional
section of the binary builder: one convolution with
`init_filters * filter_exp_base ** i` filters and the configured kernel
size per block, one normalization and one pooling layer per block. -/
theorem binary_section_counts (cfg : ModelConfig) (input_shape : Shape)
    (ks ss ps : KSize) (n : Nat) :
    convArgs ((List.range n).flatMap
        (binaryConvBlock cfg input_shape ks ss ps)) =
      ((List.range n).map
        fun i => (cfg.INIT_FILTERS * cfg.FILTER_EXP_BASE ^ i, ks)) ∧
    bnCount ((List.range n).flatMap
        (binaryConvBlock cfg input_shape ks ss ps)) = n ∧
    poolCount ((List.range n).flatMap
        (binaryConvBlock cfg input_shape ks ss ps)) = n := by
  induction n with
  | zero => exact ⟨rfl, rfl, rfl⟩
  | succ n ih =>
    obtain ⟨ih1, ih2, ih3⟩ := ih
    rw [List.range_succ]
    simp [List.flatMap_append, convArgs_append, bnCount_append,
      poolCount_append, ih1, ih2, ih3, binaryConvBlock_convArgs,
      binaryConvBlock_bnCount, binaryConvBlock_poolCount]

/-- Convolution arguments and per-kind layer counts of the convolutional
section of the multiclass builder: block 0 passes the filter-count
expression as its kernel-size argument, later blocks the configured
kernel size. -/
theorem multiclass_section_counts (cfg : ModelConfig) (input_shape : Shape)
    (ks ss ps : KSize) (n : Nat) :
    convArgs ((List.range n).flatMap
        (multiclassConvBlock cfg input_shape ks ss ps)) =
      ((List.range n).map
        fun i => (cfg.INIT_FILTERS * cfg.FILTER_EXP_BASE ^ i,
          if i = 0 then KSize.int (cfg.FILTER_EXP_BASE ^ i) else ks)) ∧
    bnCount ((List.range n).flatMap
        (multiclassConvBlock cfg input_shape ks ss ps)) = n ∧
    poolCount ((List.range n).flatMap
        (multiclassConvBlock cfg input_shape ks ss ps)) = n := by
  induction n with
  | zero => exact ⟨rfl, rfl, rfl⟩
  | succ n ih =>
    obtain ⟨ih1, ih2, ih3⟩ := ih
    rw [List.range_succ]
    simp [List.flatMap_append, convArgs_append, bnCount_append,
      poolCount_append, ih1, ih2, ih3, multiclassConvBlock_convArgs,
      multiclassConvBlock_bnCount, multiclassConvBlock_poolCount]

/-- The dense head of the binary builder contributes no convolution,
normalization or pooling layers. -/
theorem binary_head_counts (cfg : ModelConfig) (ob : Option Initializer) :
    convArgs
        [Layer.flatten, Layer.dropout cfg.DROPOUT,
         Layer.dense cfg.NODES_DENSE0 none (some "he_uniform")
           (some cfg.L2_LAMBDA) none none,
         Layer.leakyReLU,
         Layer.dense 1 (some .sigmoid) none none ob (some "output")] = [] ∧
    bnCount
        [Layer.flatten, Layer.dropout cfg.DROPOUT,
         Layer.dense cfg.NODES_DENSE0 none (some "he_uniform")
           (some cfg.L2_LAMBDA) none none,
         Layer.leakyReLU,
         Layer.dense 1 (some .sigmoid) none none ob (some "output")] = 0 ∧
    poolCount
        [Layer.flatten, Layer.dropout cfg.DROPOUT,
         Layer.dense cfg.NODES_DENSE0 none (some "he_uniform")
           (some cfg.L2_LAMBDA) none none,
         Layer.leakyReLU,
         Layer.dense 1 (some .sigmoid) none none ob (some "output")] = 0 :=
  ⟨rfl, rfl, rfl⟩

/-- The dense head of the multiclass builder contributes no convolution,
normalization or pooling layers. -/
theorem multiclass_head_counts (cfg : ModelConfig) (num_classes : Nat) :
    convArgs
        [Layer.flatten, Layer.dropout cfg.DROPOUT,
         Layer.dense cfg.NODES_DENSE0 none (some "he_uniform")
           (some cfg.L2_LAMBDA) none none,
         Layer.dropout cfg.DROPOUT, Layer.leakyReLU,
         Layer.dense num_classes (some .softmax) none none none
           (some "output")] = [] ∧
    bnCount
        [Layer.flatten, Layer.dropout cfg.DROPOUT,
         Layer.dense cfg.NODES_DENSE0 none (some "he_uniform")
           (some cfg.L2_LAMBDA) none none,
         Layer.dropout cfg.DROPOUT, Layer.leakyReLU,
         Layer.dense num_classes (some .softmax) none none none
           (some "output")] = 0 ∧
    poolCount
        [Layer.flatten, Layer.dropout cfg.DROPOUT,
         Layer.dense cfg.NODES_DENSE0 none (some "he_uniform")
           (some cfg.L2_LAMBDA) none none,
         Layer.dropout cfg.DROPOUT, Layer.leakyReLU,
         Layer.dense num_classes (some .softmax) none none none
           (some "output")] = 0 :=
  ⟨rfl, rfl, rfl⟩

/-- Claim C2: the first convolutional block of the multiclass builder
passes the filter-count expression `filter_exp_base ** i` (at `i = 0`) as
the kernel-size argument instead of the configured kernel size, while
every later block and the other two builders use the configured kernel
size. -/
theorem multiclass_first_block_kernel
    (cfg : ModelConfig) (input_shape : Shape) (metrics : List String)
    (output_bias : Option ℚ) (num_classes : Nat) (ks ps ss : KSize)
    (hk : pyEval cfg.KERNEL_SIZE = some ks)
    (hp : pyEval cfg.MAXPOOL_SIZE = some ps)
    (hs : pyEval cfg.STRIDES = some ss) :
    (dcnn_multiclass cfg input_shape num_classes metrics).map
        (fun m => (convArgs m.layers).map Prod.snd) =
      some ((List.range cfg.CONV_BLOCKS).map
        (fun i => if i = 0 then KSize.int (cfg.FILTER_EXP_BASE ^ i)
                  else ks)) ∧
    (dcnn_binary cfg input_shape metrics output_bias).map
        (fun m => (convArgs m.layers).map Prod.snd) =
      some ((List.range cfg.CONV_BLOCKS).map fun _ => ks) ∧
    (dcnn_multiclass_resnet cfg input_shape num_classes metrics).map
        (fun m => (m.output.spineConvArgs).map Prod.snd) =
      some ((List.range cfg.CONV_BLOCKS).flatMap fun _ => [ks, ks]) := by
  rw [dcnn_binary_eq cfg input_shape metrics output_bias ks ps ss hk hp hs,
      dcnn_multiclass_eq cfg input_shape num_classes metrics ks ps ss hk hp hs,
      dcnn_multiclass_resnet_eq cfg input_shape num_classes metrics ks ps ss
        hk hp hs]
  obtain ⟨hm1, -, -⟩ := multiclass_section_counts cfg input_shape ks ss ps
    cfg.CONV_BLOCKS
  obtain ⟨hb1, -, -⟩ := binary_section_counts cfg input_shape ks ss ps
    cfg.CONV_BLOCKS
  obtain ⟨gm1, -, -⟩ := multiclass_head_counts cfg num_classes
  obtain ⟨gb1, -, -⟩ := binary_head_counts cfg
    (output_bias.map Initializer.constant)
  refine ⟨?_, ?_, ?_⟩
  · simp [convArgs_append, hm1, gm1, List.map_map, Function.comp_def]
  · simp [convArgs_append, hb1, gb1, List.map_map, Function.comp_def]
  · simp [Tensor.spineConvArgs, resnet_fold_spineConvArgs,
      List.map_flatMap]

/-- Witness for C2 at the concrete configuration `cfgA`: the multiclass
kernel-size arguments are 1, (3,3), (3,3) while the binary ones are all
(3,3). -/
theorem multiclass_first_block_kernel_witness :
    (pyEval cfgA.KERNEL_SIZE = some (KSize.pair 3 3) ∧
     pyEval cfgA.MAXPOOL_SIZE = some (KSize.pair 2 2) ∧
     pyEval cfgA.STRIDES = some (KSize.pair 1 1)) ∧
    ((dcnn_multiclass cfgA shapeA 3 ["accuracy"]).map
        (fun m => (convArgs m.layers).map Prod.snd) =
      some [KSize.int 1, KSize.pair 3 3, KSize.pair 3 3] ∧
    (dcnn_binary cfgA shapeA ["accuracy"] none).map
        (fun m => (convArgs m.layers).map Prod.snd) =
      some [KSize.pair 3 3, KSize.pair 3 3, KSize.pair 3 3] ∧
    (dcnn_multiclass_resnet cfgA shapeA 3 ["accuracy"]).map
        (fun m => (m.output.spineConvArgs).map Prod.snd) =
      some [KSize.pair 3 3, KSize.pair 3 3, KSize.pair 3 3,
        KSize.pair 3 3, KSize.pair 3 3, KSize.pair 3 3]) :=
  ⟨⟨rfl, rfl, rfl⟩,
   multiclass_first_block_kernel cfgA shapeA ["accuracy"] none 3
     (KSize.pair 3 3) (KSize.pair 2 2) (KSize.pair 1 1) rfl rfl rfl⟩

/-- Claim C3: for every configuration with block count `n ≥ 0`, each
builder constructs exactly `n` convolutional stages before the
flatten/dense head: `n` convolutions, `n` normalizations and `n` pooling
layers in the sequential builders, and `n` pooling stages with `2 n`
convolutions along the residual graph. -/
theorem conv_stage_count
    (cfg : ModelConfig) (input_shape : Shape) (metrics : List String)
    (output_bias : Option ℚ) (num_classes : Nat) (ks ps ss : KSize)
    (hk : pyEval cfg.KERNEL_SIZE = some ks)
    (hp : pyEval cfg.MAXPOOL_SIZE = some ps)
    (hs : pyEval cfg.STRIDES = some ss) :
    (dcnn_binary cfg input_shape metrics output_bias).map
        (fun m => ((convArgs m.layers).length, bnCount m.layers,
          poolCount m.layers)) =
      some (cfg.CONV_BLOCKS, cfg.CONV_BLOCKS, cfg.CONV_BLOCKS) ∧
    (dcnn_multiclass cfg input_shape num_classes metrics).map
        (fun m => ((convArgs m.layers).length, bnCount m.layers,
          poolCount m.layers)) =
      some (cfg.CONV_BLOCKS, cfg.CONV_BLOCKS, cfg.CONV_BLOCKS) ∧
    (dcnn_multiclass_resnet cfg input_shape num_classes metrics).map
        (fun m => (m.output.spinePoolCount,
          m.output.spineConvArgs.length)) =
      some (cfg.CONV_BLOCKS, 2 * cfg.CONV_BLOCKS) := by
  rw [dcnn_binary_eq cfg input_shape metrics output_bias ks ps ss hk hp hs,
      dcnn_multiclass_eq cfg input_shape num_classes metrics ks ps ss hk hp hs,
      dcnn_multiclass_resnet_eq cfg input_shape num_classes metrics ks ps ss
        hk hp hs]
  obtain ⟨hb1, hb2, hb3⟩ := binary_section_counts cfg input_shape ks ss ps
    cfg.CONV_BLOCKS
  obtain ⟨hm1, hm2, hm3⟩ := multiclass_section_counts cfg input_shape ks ss ps
    cfg.CONV_BLOCKS
  obtain ⟨gb1, gb2, gb3⟩ := binary_head_counts cfg
    (output_bias.map Initializer.constant)
  obtain ⟨gm1, gm2, gm3⟩ := multiclass_head_counts cfg num_classes
  refine ⟨?_, ?_, ?_⟩
  · simp [convArgs_append, bnCount_append, poolCount_append,
      hb1, hb2, hb3, gb1, gb2, gb3]
  · simp [convArgs_append, bnCount_append, poolCount_append,
      hm1, hm2, hm3, gm1, gm2, gm3]
  · simp [Tensor.spineConvArgs, Tensor.spinePoolCount,
      resnet_fold_spineConvArgs, resnet_fold_spinePoolCount,
      List.length_flatMap, Function.comp_def, sum_map_const, Nat.mul_comm]

/-- Witness for C3 at the concrete configuration `cfgA` (3 blocks). -/
theorem conv_stage_count_witness :
    (pyEval cfgA.KERNEL_SIZE = some (KSize.pair 3 3) ∧
     pyEval cfgA.MAXPOOL_SIZE = some (KSize.pair 2 2) ∧
     pyEval cfgA.STRIDES = some (KSize.pair 1 1)) ∧
    ((dcnn_binary cfgA shapeA ["accuracy"] none).map
        (fun m => ((convArgs m.layers).length, bnCount m.layers,
          poolCount m.layers)) = some (3, 3, 3) ∧
    (dcnn_multiclass cfgA shapeA 3 ["accuracy"]).map
        (fun m => ((convArgs m.layers).length, bnCount m.layers,
          poolCount m.layers)) = some (3, 3, 3) ∧
    (dcnn_multiclass_resnet cfgA shapeA 3 ["accuracy"]).map
        (fun m => (m.output.spinePoolCount,
          m.output.spineConvArgs.length)) = some (3, 6)) :=
  ⟨⟨rfl, rfl, rfl⟩,
   conv_stage_count cfgA shapeA ["accuracy"] none 3
     (KSize.pair 3 3) (KSize.pair 2 2) (KSize.pair 1 1) rfl rfl rfl⟩

/-- Claim C4: in every builder, the convolution(s) of block `i` carry
`init_filters * filter_exp_base ** i` filters. -/
theorem filter_growth
    (cfg : ModelConfig) (input_shape : Shape) (metrics : List String)
    (output_bias : Option ℚ) (num_classes : Nat) (ks ps ss : KSize)
    (hk : pyEval cfg.KERNEL_SIZE = some ks)
    (hp : pyEval cfg.MAXPOOL_SIZE = some ps)
    (hs : pyEval cfg.STRIDES = some ss) :
    (dcnn_binary cfg input_shape metrics output_bias).map
        (fun m => (convArgs m.layers).map Prod.fst) =
      some ((List.range cfg.CONV_BLOCKS).map
        fun i => cfg.INIT_FILTERS * cfg.FILTER_EXP_BASE ^ i) ∧
    (dcnn_multiclass cfg input_shape num_classes metrics).map
        (fun m => (convArgs m.layers).map Prod.fst) =
      some ((List.range cfg.CONV_BLOCKS).map
        fun i => cfg.INIT_FILTERS * cfg.FILTER_EXP_BASE ^ i) ∧
    (dcnn_multiclass_resnet cfg input_shape num_classes metrics).map
        (fun m => (m.output.spineConvArgs).map Prod.fst) =
      some ((List.range cfg.CONV_BLOCKS).flatMap
        fun i => [cfg.INIT_FILTERS * cfg.FILTER_EXP_BASE ^ i,
                  cfg.INIT_FILTERS * cfg.FILTER_EXP_BASE ^ i]) := by
  rw [dcnn_binary_eq cfg input_shape metrics output_bias ks ps ss hk hp hs,
      dcnn_multiclass_eq cfg input_shape num_classes metrics ks ps ss hk hp hs,
      dcnn_multiclass_resnet_eq cfg input_shape num_classes metrics ks ps ss
        hk hp hs]
  obtain ⟨hb1, -, -⟩ := binary_section_counts cfg input_shape ks ss ps
    cfg.CONV_BLOCKS
  obtain ⟨hm1, -, -⟩ := multiclass_section_counts cfg input_shape ks ss ps
    cfg.CONV_BLOCKS
  obtain ⟨gb1, -, -⟩ := binary_head_counts cfg
    (output_bias.map Initializer.constant)
  obtain ⟨gm1, -, -⟩ := multiclass_head_counts cfg num_classes
  refine ⟨?_, ?_, ?_⟩
  · simp [convArgs_append, hb1, gb1, List.map_map, Function.comp_def]
  · simp [convArgs_append, hm1, gm1, List.map_map, Function.comp_def]
  · simp [Tensor.spineConvArgs, resnet_fold_spineConvArgs,
      List.map_flatMap]

/-- Witness for C4 at `cfgA` (initial filters 16, growth base 2,
3 blocks): the filter counts at blocks 0, 1, 2 are 16, 32, 64. -/
theorem filter_growth_witness :
    (pyEval cfgA.KERNEL_SIZE = some (KSize.pair 3 3) ∧
     pyEval cfgA.MAXPOOL_SIZE = some (KSize.pair 2 2) ∧
     pyEval cfgA.STRIDES = some (KSize.pair 1 1)) ∧
    ((dcnn_binary cfgA shapeA ["accuracy"] none).map
        (fun m => (convArgs m.layers).map Prod.fst) =
      some [16, 32, 64] ∧
    (dcnn_multiclass cfgA shapeA 3 ["accuracy"]).map
        (fun m => (convArgs m.layers).map Prod.fst) =
      some [16, 32, 64] ∧
    (dcnn_multiclass_resnet cfgA shapeA 3 ["accuracy"]).map
        (fun m => (m.output.spineConvArgs).map Prod.fst) =
      some [16, 16, 32, 32, 64, 64]) :=
  ⟨⟨rfl, rfl, rfl⟩,
   filter_growth cfgA shapeA ["accuracy"] none 3
     (KSize.pair 3 3) (KSize.pair 2 2) (KSize.pair 1 1) rfl rfl rfl⟩

/-- Claim C6: in the residual builder every block keeps its input `X` as
a shortcut, sends the main branch through two successive convolutions,
concatenates the two branches before the block's final normalization,
activation and pooling, and the pre-pooling tensor's channel dimension is
the sum of the transformed branch's channels and the shortcut's
channels. -/
theorem resnet_block_structure (cfg : ModelConfig) (ks ss ps : KSize)
    (i : Nat) (X : Tensor) :
    resnetConvBlock cfg ks ss ps i X =
      Tensor.maxPool2D ps "same" (Tensor.leakyReLU (Tensor.batchNormalization
        (Tensor.concat
          (Tensor.conv2D (cfg.INIT_FILTERS * cfg.FILTER_EXP_BASE ^ i) ks ss
            "same" "he_uniform" cfg.L2_LAMBDA
            (Tensor.leakyReLU (Tensor.batchNormalization
              (Tensor.conv2D (cfg.INIT_FILTERS * cfg.FILTER_EXP_BASE ^ i)
                ks ss "same" "he_uniform" cfg.L2_LAMBDA X))))
          X))) ∧
    (Tensor.leakyReLU (Tensor.batchNormalization
        (Tensor.concat
          (Tensor.conv2D (cfg.INIT_FILTERS * cfg.FILTER_EXP_BASE ^ i) ks ss
            "same" "he_uniform" cfg.L2_LAMBDA
            (Tensor.leakyReLU (Tensor.batchNormalization
              (Tensor.conv2D (cfg.INIT_FILTERS * cfg.FILTER_EXP_BASE ^ i)
                ks ss "same" "he_uniform" cfg.L2_LAMBDA X))))
          X))).channels =
      (Tensor.conv2D (cfg.INIT_FILTERS * cfg.FILTER_EXP_BASE ^ i) ks ss
          "same" "he_uniform" cfg.L2_LAMBDA
          (Tensor.leakyReLU (Tensor.batchNormalization
            (Tensor.conv2D (cfg.INIT_FILTERS * cfg.FILTER_EXP_BASE ^ i)
              ks ss "same" "he_uniform" cfg.L2_LAMBDA X)))).channels +
        X.channels ∧
    (Tensor.conv2D (cfg.INIT_FILTERS * cfg.FILTER_EXP_BASE ^ i) ks ss
        "same" "he_uniform" cfg.L2_LAMBDA
        (Tensor.leakyReLU (Tensor.batchNormalization
          (Tensor.conv2D (cfg.INIT_FILTERS * cfg.FILTER_EXP_BASE ^ i)
            ks ss "same" "he_uniform" cfg.L2_LAMBDA X)))).channels =
      cfg.INIT_FILTERS * cfg.FILTER_EXP_BASE ^ i :=
  ⟨rfl, rfl, rfl⟩

/-- Claim C8: when any of the three size expressions of the configuration
is malformed (non-evaluable), every builder fails at construction time
and returns no model at all. -/
theorem malformed_config_fails (cfg : ModelConfig) (input_shape : Shape)
    (metrics : List String) (output_bias : Option ℚ) (num_classes : Nat)
    (h : pyEval cfg.KERNEL_SIZE = none ∨ pyEval cfg.MAXPOOL_SIZE = none ∨
      pyEval cfg.STRIDES = none) :
    dcnn_binary cfg input_shape metrics output_bias = none ∧
    dcnn_multiclass cfg input_shape num_classes metrics = none ∧
    dcnn_multiclass_resnet cfg input_shape num_classes metrics = none := by
  cases hk : pyEval cfg.KERNEL_SIZE <;>
    cases hp : pyEval cfg.MAXPOOL_SIZE <;>
    cases hs : pyEval cfg.STRIDES <;>
    simp_all [dcnn_binary, dcnn_multiclass, dcnn_multiclass_resnet]

/-- Witness for C8 at the configuration `cfgBad`, whose kernel-size
expression is malformed. -/
theorem malformed_config_fails_witness :
    (pyEval cfgBad.KERNEL_SIZE = none ∨ pyEval cfgBad.MAXPOOL_SIZE = none ∨
      pyEval cfgBad.STRIDES = none) ∧
    (dcnn_binary cfgBad shapeA ["accuracy"] none = none ∧
     dcnn_multiclass cfgBad shapeA 3 ["accuracy"] = none ∧
     dcnn_multiclass_resnet cfgBad shapeA 3 ["accuracy"] = none) :=
  ⟨Or.inl rfl,
   malformed_config_fails cfgBad shapeA ["accuracy"] none 3 (Or.inl rfl)⟩

/-- Counterexample to claim C9 as stated: with a zero block count the
residual builder silently succeeds, returning a compiled model with zero
pooling stages whose input flows straight into flatten and the dense
head. -/
theorem zero_blocks_silently_succeeds :
    (dcnn_multiclass_resnet cfgZ shapeA 3 ["accuracy"]).map
        (fun m => (m.output, Tensor.spinePoolCount m.output)) =
      some (Tensor.dense 3 (some .softmax) none none (some "output")
        (Tensor.leakyReLU (Tensor.dense 128 none (some "he_uniform")
          (some (1/100)) none (Tensor.dropout (1/2)
            (Tensor.flatten (Tensor.input shapeA))))), 0) := rfl

/-- Amended claim C9: a zero-block call of the residual builder quietly
returns a compiled model whose input flows straight to flatten and the
dense head, with no spatial-reduction stage; the code contains no guard
against a zero block count. -/
theorem zero_blocks_resnet_succeeds (cfg : ModelConfig)
    (input_shape : Shape) (num_classes : Nat) (metrics : List String)
    (ks ps ss : KSize)
    (hk : pyEval cfg.KERNEL_SIZE = some ks)
    (hp : pyEval cfg.MAXPOOL_SIZE = some ps)
    (hs : pyEval cfg.STRIDES = some ss)
    (h0 : cfg.CONV_BLOCKS = 0) :
    (dcnn_multiclass_resnet cfg input_shape num_classes metrics).map
        (fun m => (m.output, Tensor.spinePoolCount m.output)) =
      some (Tensor.dense num_classes (some .softmax) none none
        (some "output") (Tensor.leakyReLU
          (Tensor.dense cfg.NODES_DENSE0 none (some "he_uniform")
            (some cfg.L2_LAMBDA) none (Tensor.dropout cfg.DROPOUT
              (Tensor.flatten (Tensor.input input_shape))))), 0) := by
  rw [dcnn_multiclass_resnet_eq cfg input_shape num_classes metrics ks ps ss
    hk hp hs, h0]
  rfl

/-- Witness for the amended C9 at the zero-block configuration `cfgZ`. -/
theorem zero_blocks_resnet_succeeds_witness :
    (pyEval cfgZ.KERNEL_SIZE = some (KSize.pair 3 3) ∧
     pyEval cfgZ.MAXPOOL_SIZE = some (KSize.pair 2 2) ∧
     pyEval cfgZ.STRIDES = some (KSize.pair 1 1) ∧
     cfgZ.CONV_BLOCKS = 0) ∧
    (dcnn_multiclass_resnet cfgZ shapeA 3 ["accuracy"]).map
        (fun m => (m.output, Tensor.spinePoolCount m.output)) =
      some (Tensor.dense 3 (some .softmax) none none (some "output")
        (Tensor.leakyReLU (Tensor.dense 128 none (some "he_uniform")
          (some (1/100)) none (Tensor.dropout (1/2)
            (Tensor.flatten (Tensor.input shapeA))))), 0) :=
  ⟨⟨rfl, rfl, rfl, rfl⟩,
   zero_blocks_resnet_succeeds cfgZ shapeA 3 ["accuracy"]
     (KSize.pair 3 3) (KSize.pair 2 2) (KSize.pair 1 1) rfl rfl rfl rfl⟩

/-- Claim C10: in the multiclass builder the first convolution's
kernel-size argument equals `filter_exp_base ** 0 = 1` — a 1x1
convolution — for every configured growth base and every configured
kernel-size expression; neither has any effect on the first block's
kernel. -/
theorem multiclass_first_kernel_is_one (cfg : ModelConfig)
    (input_shape : Shape) (num_classes : Nat) (metrics : List String)
    (ks ps ss : KSize)
    (hk : pyEval cfg.KERNEL_SIZE = some ks)
    (hp : pyEval cfg.MAXPOOL_SIZE = some ps)
    (hs : pyEval cfg.STRIDES = some ss)
    (hn : 0 < cfg.CONV_BLOCKS) :
    (dcnn_multiclass cfg input_shape num_classes metrics).map
        (fun m => m.layers.head?) =
      some (some (Layer.conv2D cfg.INIT_FILTERS (KSize.int 1) ss "same"
        "he_uniform" cfg.L2_LAMBDA (some input_shape))) := by
  rw [dcnn_multiclass_eq cfg input_shape num_classes metrics ks ps ss
    hk hp hs]
  obtain ⟨k, hk2⟩ : ∃ k, cfg.CONV_BLOCKS = k + 1 :=
    ⟨cfg.CONV_BLOCKS - 1, (Nat.succ_pred_eq_of_pos hn).symm⟩
  rw [hk2, List.range_succ_eq_map]
  simp [multiclassConvBlock]

/-- Witness for C10 at the concrete configuration `cfgA` (growth base 2,
kernel size (3,3)): the first convolution still has kernel size 1. -/
theorem multiclass_first_kernel_is_one_witness :
    (pyEval cfgA.KERNEL_SIZE = some (KSize.pair 3 3) ∧
     pyEval cfgA.MAXPOOL_SIZE = some (KSize.pair 2 2) ∧
     pyEval cfgA.STRIDES = some (KSize.pair 1 1) ∧
     0 < cfgA.CONV_BLOCKS) ∧
    (dcnn_multiclass cfgA shapeA 3 ["accuracy"]).map
        (fun m => m.layers.head?) =
      some (some (Layer.conv2D 16 (KSize.int 1) (KSize.pair 1 1) "same"
        "he_uniform" (1/100) (some shapeA))) :=
  ⟨⟨rfl, rfl, rfl, by decide⟩,
   multiclass_first_kernel_is_one cfgA shapeA 3 ["accuracy"]
     (KSize.pair 3 3) (KSize.pair 2 2) (KSize.pair 1 1) rfl rfl rfl
     (by decide)⟩

end CovidCxr
